/-
Verification of the simulation core of `galaxy-of-consequence`.

This file shallowly embeds the decision logic of the repository's
simulation engine (faction reputation state machine, Force
morality engine, procedural quest generator, multiplayer session
manager) and proves or refutes the specification claims about it.

Conventions used throughout the embedding:
* Python `int` is modelled as `Int`; Python `float` is modelled as `ℚ`
  (all float literals appearing in the source — 0.3, 0.5, 0.6, 0.4,
  0.2, 0.33, 0.7 — and all reachable intermediate values are far from
  any binary64 rounding boundary on the domains in question, so the
  rational idealisation agrees with the float computation there).
* Python `int(x)` (truncation toward zero) is `pyInt`.
* Python dicts with a fixed key set are flattened into structure
  fields; dicts with dynamic keys become association lists
  (`List (String × _)`) with Python-dict update semantics
  (insertion order kept, value replaced in place).
* `random.*` draws are passed in explicitly as oracle arguments;
  range constraints on a draw appear as hypotheses where needed.
* Code that raises is modelled with `Option`/`Except`; timestamp
  strings produced by `datetime.utcnow()` are oracle arguments or
  dropped when no claim mentions them.
-/
import Mathlib

set_option maxHeartbeats 1000000

/-- Python `int(x)` on a rational: truncation toward zero, i.e. the
floor for non-negative arguments and the negated floor of the
negation otherwise. -/
def pyInt (q : ℚ) : Int :=
  if 0 ≤ q then Int.floor q else - Int.floor (-q)

/-! ## Faction reputation state machine
`src/models.py` (`FactionState`) and
`src/services/galaxy_service.py` (`update_faction_ai`). -/

/-- Embedding of the `FactionState` model (src/models.py lines 68-79).
`goals` and the `last_interaction` timestamp are carried by no rule a
claim mentions and are dropped; `active_operations` is stored as a JSON
list of strings in the database and is modelled as the decoded list. -/
structure FactionState where
  id : String
  faction_name : String
  user : String
  reputation : Int
  awareness : Int
  resources : Int
  active_operations : List String
  deriving Repr, DecidableEq

/-- Action-keyed reputation/awareness deltas of `update_faction_ai`
(src/services/galaxy_service.py lines 13-52). -/
def applyActionDeltas (f : FactionState) (action : String) : FactionState :=
  if action = "help_empire" then
    if f.faction_name = "Galactic Empire" then
      { f with reputation := f.reputation + 10, awareness := f.awareness + 5 }
    else if f.faction_name = "Rebel Alliance" then
      { f with reputation := f.reputation - 15, awareness := f.awareness + 10 }
    else f
  else if action = "help_rebels" then
    if f.faction_name = "Rebel Alliance" then
      { f with reputation := f.reputation + 10, awareness := f.awareness + 5 }
    else if f.faction_name = "Galactic Empire" then
      { f with reputation := f.reputation - 15, awareness := f.awareness + 10 }
    else f
  else if action = "smuggling" then
    if f.faction_name = "Corporate Sector Authority" then
      { f with reputation := f.reputation - 5, awareness := f.awareness + 8 }
    else if f.faction_name = "Galactic Empire" then
      { f with reputation := f.reputation - 3, awareness := f.awareness + 5 }
    else f
  else if action = "bounty_hunting" then
    if f.faction_name = "Galactic Empire" then
      { f with reputation := f.reputation + 5, awareness := f.awareness + 3 }
    else f
  else if action = "piracy" then
    if f.faction_name ∈ ["Galactic Empire", "Rebel Alliance", "Corporate Sector Authority"] then
      { f with reputation := f.reputation - 10, awareness := f.awareness + 15 }
    else f
  else if action = "passive_tick" then
    if 0 < f.awareness then { f with awareness := max 0 (f.awareness - 1) } else f
  else f

/-- Resource drift of `update_faction_ai`
(src/services/galaxy_service.py lines 55-58). -/
def updateResources (f : FactionState) : FactionState :=
  if 50 < f.reputation then { f with resources := min 1000 (f.resources + 5) }
  else if f.reputation < -50 then { f with resources := max 100 (f.resources - 3) }
  else f

/-- Operations-list hysteresis of `update_faction_ai`
(src/services/galaxy_service.py lines 61-69). -/
def updateOperations (f : FactionState) : FactionState :=
  if 70 < f.awareness then
    if "Hunt player" ∈ f.active_operations then f
    else { f with active_operations := f.active_operations ++ ["Hunt player"] }
  else if f.awareness < 30 then
    { f with active_operations := f.active_operations.filter (fun op => op ≠ "Hunt player") }
  else f

/-- `update_faction_ai` (src/services/galaxy_service.py lines 7-76):
action deltas, then resource drift, then the operations update.  The
enclosing try/except returns None only if a step raises; no step of
the embedded body can, so the function is total here. -/
def update_faction_ai (f : FactionState) (action : String) : FactionState :=
  updateOperations (updateResources (applyActionDeltas f action))

/-- Reputation clamp applied by the `update_faction_reputation` route
(src/routes/faction.py line 121). -/
def clampReputation (x : Int) : Int := max (-100) (min 100 x)

/-- Awareness clamp applied by the `update_faction_reputation` route
(src/routes/faction.py line 122). -/
def clampAwareness (x : Int) : Int := max 0 (min 100 x)

/-- Delta application of the `update_faction_reputation` route for an
existing faction record (src/routes/faction.py lines 117-122). -/
def update_faction_reputation_apply (f : FactionState) (drep daw : Int) : FactionState :=
  { f with reputation := clampReputation (f.reputation + drep),
           awareness := clampAwareness (f.awareness + daw) }

/-! ## Force morality engine
`src/services/force_morality_engine.py`. -/

/-- The `ForceAlignment` enum (src/services/force_morality_engine.py
lines 14-19). -/
inductive ForceAlignment where
  | light
  | dark
  | balance
  | gray
  | conflicted
  deriving Repr, DecidableEq

/-- The `MoralConsequence` enum (src/services/force_morality_engine.py
lines 21-25). -/
inductive MoralConsequence where
  | minor
  | moderate
  | major
  | galactic
  deriving Repr, DecidableEq

/-- The `MoralConsequence(value)` enum constructor: `some` on a member
value, `none` where Python raises `ValueError`. -/
def MoralConsequence.ofString (s : String) : Option MoralConsequence :=
  if s = "minor" then some .minor
  else if s = "moderate" then some .moderate
  else if s = "major" then some .major
  else if s = "galactic" then some .galactic
  else none

/-- Embedding of the `MoralChoice` dataclass (src/services/
force_morality_engine.py lines 27-36).  Every construction site fills
`alignment_shift` with exactly the keys "light", "dark", "balance", so
the dict is flattened into three fields; the timestamp is dropped and
`choice_id` keeps only its history-length component. -/
structure MoralChoice where
  choice_id : String
  description : String
  alignment_shift_light : Int
  alignment_shift_dark : Int
  alignment_shift_balance : Int
  narrative_weight : ℚ
  consequence_level : MoralConsequence
  faction_impacts : List (String × Int)
  force_echo : Bool
  deriving Repr, DecidableEq

/-- Embedding of the `ForceProfile` dataclass (src/services/
force_morality_engine.py lines 38-49). -/
structure ForceProfile where
  user_id : String
  light_side_points : Int
  dark_side_points : Int
  balance_points : Int
  current_alignment : ForceAlignment
  force_sensitivity : ℚ
  moral_history : List MoralChoice
  destiny_threads : List String
  corruption_resistance : ℚ
  redemption_potential : ℚ
  deriving Repr, DecidableEq

/-- The caller-supplied choice context dict: `type`, `description` and
`consequence_level` may be absent (Python `context.get`), and
`faction_impacts` defaults to the empty dict. -/
structure ChoiceContext where
  ctype : Option String
  description : Option String
  consequence_level : Option String
  faction_impacts : List (String × Int)
  deriving Repr, DecidableEq

/-- Description text of the `moral_templates` entry selected by
`self.moral_templates.get(choice_type, self.moral_templates
["sacrifice_dilemma"])` (src/services/force_morality_engine.py lines
67-86 and 228); only the description field of the template is read. -/
def moralTemplateDescription (choiceType : String) : String :=
  if choiceType = "sacrifice_dilemma" then
    "Save one to doom many, or sacrifice few for the greater good"
  else if choiceType = "power_temptation" then
    "Use forbidden knowledge or power to achieve righteous goals"
  else if choiceType = "mercy_vs_justice" then
    "Show mercy to an enemy or deliver absolute justice"
  else
    "Save one to doom many, or sacrifice few for the greater good"

/-- `_generate_contextual_choice` (src/services/force_morality_engine.py
lines 225-253).  `nw` is the `random.uniform(0.3, 1.0)` draw for
`narrative_weight`.  The result is `none` exactly where the Python
code raises `ValueError`, namely when `MoralConsequence(...)` is
applied to an unrecognised consequence-level string. -/
def generate_contextual_choice (ctx : ChoiceContext) (selected : String)
    (profile : ForceProfile) (nw : ℚ) : Option MoralChoice :=
  let choiceType := ctx.ctype.getD "general"
  let baseShift : Int := 10
  let shifts : Int × Int × Int :=
    if selected = "light" then (baseShift, -baseShift / 2, baseShift / 2)
    else if selected = "dark" then (-baseShift / 2, baseShift, -baseShift / 2)
    else (0, 0, baseShift)
  let mult : ℚ := 1 + profile.force_sensitivity * (1 / 2)
  let shiftLight := pyInt ((shifts.1 : ℚ) * mult)
  let shiftDark := pyInt ((shifts.2.1 : ℚ) * mult)
  let shiftBalance := pyInt ((shifts.2.2 : ℚ) * mult)
  (MoralConsequence.ofString (ctx.consequence_level.getD "moderate")).map fun lvl =>
    { choice_id := "choice_" ++ toString profile.moral_history.length,
      description := ctx.description.getD (moralTemplateDescription choiceType),
      alignment_shift_light := shiftLight,
      alignment_shift_dark := shiftDark,
      alignment_shift_balance := shiftBalance,
      narrative_weight := nw,
      consequence_level := lvl,
      faction_impacts := ctx.faction_impacts,
      force_echo := decide (profile.force_sensitivity > 1 / 2) }

/-- `_apply_force_shifts` (src/services/force_morality_engine.py lines
255-284): each point total is clamped to [0, 100] after its delta, and
the dark delta is first damped by `(1 - corruption_resistance * 0.3)`
and truncated by `int(...)`.  The shift dict always holds exactly the
light/dark/balance keys, and the three updates touch disjoint fields,
so the dict iteration order is immaterial. -/
def apply_force_shifts (p : ForceProfile) (c : MoralChoice) : ForceProfile :=
  { p with
    light_side_points := max 0 (min 100 (p.light_side_points + c.alignment_shift_light)),
    dark_side_points := max 0 (min 100 (p.dark_side_points +
      pyInt ((c.alignment_shift_dark : ℚ) * (1 - p.corruption_resistance * (3 / 10))))),
    balance_points := max 0 (min 100 (p.balance_points + c.alignment_shift_balance)) }

/-- Alignment derivation of `_update_alignment_status` (src/services/
force_morality_engine.py lines 344-366) as a function of the three
point totals. -/
def alignmentFromPoints (l d b : Int) : ForceAlignment :=
  let total := l + d + b
  if total = 0 then ForceAlignment.balance
  else
    let lightRatio : ℚ := (l : ℚ) / (total : ℚ)
    let darkRatio : ℚ := (d : ℚ) / (total : ℚ)
    let balanceRatio : ℚ := (b : ℚ) / (total : ℚ)
    if lightRatio > 6 / 10 then ForceAlignment.light
    else if darkRatio > 6 / 10 then ForceAlignment.dark
    else if balanceRatio > 4 / 10 then ForceAlignment.balance
    else if |lightRatio - darkRatio| < 2 / 10 then ForceAlignment.conflicted
    else ForceAlignment.gray

/-- `_update_alignment_status` applied to a profile. -/
def update_alignment_status (p : ForceProfile) : ForceProfile :=
  { p with current_alignment :=
      alignmentFromPoints p.light_side_points p.dark_side_points p.balance_points }

/-- `_calculate_sensitivity_change` (src/services/force_morality_engine.py
lines 507-511); `echoDraw` is the `random.uniform(0.01, 0.05)` value
drawn when the choice carries a Force echo.  The method is defined in
the source but unreachable from `process_moral_choice`: its call site
(line 137) sits after the `AttributeError` raised at line 128, so no
run ever evaluates it. -/
def calculate_sensitivity_change (c : MoralChoice) (echoDraw : ℚ) : ℚ :=
  if c.force_echo then echoDraw else 0

/-- The observable behaviour of `process_moral_choice` (src/services/
force_morality_engine.py lines 107-142) for a user whose profile
already exists, as a pair of the stored profile and the call's
outcome.  `_generate_contextual_choice` either raises `ValueError`
(unknown consequence level — before any mutation) or yields the
choice; the Force shifts are then applied, the choice is appended to
the moral history and the alignment is rederived — and line 128
invokes `self._generate_force_echoes(...)`, a method defined nowhere
in the repository (as are `_process_galactic_impacts`, line 131, and
`_calculate_destiny_shift`, line 141), so every call that reaches it
raises `AttributeError` with the mutations above already in place.
The result dict of lines 133-142, including its
`force_sensitivity_change` entry, is never built. -/
def process_moral_choice_profile (p : ForceProfile) (ctx : ChoiceContext)
    (selected : String) (nw : ℚ) : ForceProfile × Except String Unit :=
  (generate_contextual_choice ctx selected p nw).elim
    (p, Except.error "ValueError: invalid consequence_level")
    fun choice =>
      let p1 := apply_force_shifts p choice
      let p2 := { p1 with moral_history := p1.moral_history ++ [choice] }
      let p3 := update_alignment_status p2
      (p3, Except.error "AttributeError: _generate_force_echoes is not defined")

/-! ## Procedural quest generator
`src/services/galaxy_service.py`, `generate_procedural_quest`. -/

/-- Python `random.choice(l)` with the drawn index made explicit:
`none` exactly when the list is empty, where Python raises
`IndexError`; on a non-empty list every element is selectable. -/
def randChoice {α : Type} (l : List α) (i : Nat) : Option α :=
  l.get? (i % l.length)

/-- Total variant of `randChoice` for choices over the fixed non-empty
literal lists in the source, where `random.choice` cannot fail; the
default is never reached. -/
def randChoiceD {α : Type} (l : List α) (i : Nat) (d : α) : α :=
  (randChoice l i).getD d

/-- The quest dict returned by `generate_procedural_quest`
(src/services/galaxy_service.py lines 205-213); the `type` key is
spelled `qtype`. -/
structure Quest where
  title : String
  qtype : String
  description : String
  objectives : List String
  rewards : List String
  difficulty : String
  faction_involvement : List String
  deriving Repr, DecidableEq

/-- Oracle holding every random draw `generate_procedural_quest` can
make, in source order: the two `random.random()` gates of the type
selection, the indices of each `random.choice`, and the reward rolls. -/
structure QuestRand where
  r1 : ℚ
  r2 : ℚ
  typeChoice : Nat
  giverChoice : Nat
  enemyChoice : Nat
  titleChoice : Nat
  descChoice : Nat
  locChoice : Nat
  credits : Int
  rRep : ℚ
  rEquip : ℚ
  equipChoice : Nat
  rAlly : ℚ

/-- Title pool of `quest_templates[qt]["titles"]`
(src/services/galaxy_service.py lines 118-167). -/
def questTitles (qt : String) : List String :=
  if qt = "delivery" then
    ["Critical Supply Run", "Urgent Package Delivery", "Classified Transport Mission"]
  else if qt = "rescue" then
    ["Extraction Operation", "Rescue Mission", "Prisoner Liberation"]
  else if qt = "sabotage" then
    ["Covert Operations", "Sabotage Mission", "Disruption Protocol"]
  else
    ["Intelligence Gathering", "Mystery Investigation", "Corporate Espionage"]

/-- Description pool of `quest_templates[qt]["descriptions"]`, with the
`.format` substitution applied: each entry is a function of the quest
giver name, the enemy faction name and the location (the `threat`
placeholder is filled with the enemy faction name at the call site,
src/services/galaxy_service.py lines 185-190). -/
def questDescriptions (qt : String) : List (String → String → String → String) :=
  if qt = "delivery" then
    [fun faction _ location =>
       "A " ++ faction ++ " contact needs sensitive materials delivered to " ++ location ++ ".",
     fun _ enemy _ => "Transport classified cargo through " ++ enemy ++ " territory.",
     fun _ _ location => "Rush delivery of medical supplies to " ++ location ++ "."]
  else if qt = "rescue" then
    [fun faction _ _ => "A " ++ faction ++ " agent is trapped behind enemy lines.",
     fun _ enemy location =>
       "Extract civilians from " ++ location ++ " before " ++ enemy ++ " arrives.",
     fun _ enemy _ => "Break out a political prisoner from " ++ enemy ++ " custody."]
  else if qt = "sabotage" then
    [fun _ enemy location => "Disable " ++ enemy ++ " communications on " ++ location ++ ".",
     fun _ enemy _ => "Sabotage " ++ enemy ++ " supply lines.",
     fun _ enemy _ => "Plant surveillance devices in " ++ enemy ++ " facilities."]
  else
    [fun _ enemy _ => "Investigate suspicious " ++ enemy ++ " activities.",
     fun faction _ _ =>
       "Uncover the truth behind recent attacks on " ++ faction ++ " assets.",
     fun _ enemy _ => "Gather intelligence on " ++ enemy ++ " fleet movements."]

/-- `generate_quest_objectives` (src/services/galaxy_service.py lines
228-257). -/
def generate_quest_objectives (questType faction enemyFaction : String) : List String :=
  if questType = "delivery" then
    ["Obtain package from " ++ faction ++ " contact", "Navigate to destination safely",
     "Deliver package without detection", "Report back to quest giver"]
  else if questType = "rescue" then
    ["Locate " ++ faction ++ " agent", "Avoid " ++ enemyFaction ++ " patrols",
     "Extract target safely", "Escort to safe house"]
  else if questType = "sabotage" then
    ["Infiltrate " ++ enemyFaction ++ " facility", "Plant surveillance devices",
     "Avoid security detection", "Escape without raising alarms"]
  else if questType = "investigation" then
    ["Gather intelligence at location", "Interview witnesses",
     "Analyze collected data", "Report findings"]
  else
    ["Complete the mission"]

/-- `generate_quest_rewards` (src/services/galaxy_service.py lines
259-287); `r.credits` is the `random.randint(500, 2000)` draw. -/
def generate_quest_rewards (questType : String) (factionReputation : Int)
    (r : QuestRand) : List String :=
  let baseCredits :=
    if 50 < factionReputation then pyInt ((r.credits : ℚ) * (3 / 2))
    else if factionReputation < -30 then pyInt ((r.credits : ℚ) * (7 / 10))
    else r.credits
  let rewards := [toString baseCredits ++ " credits"]
  let rewards := if r.rRep < 3 / 5 then rewards ++ ["Faction reputation +10"] else rewards
  let rewards :=
    if r.rEquip < 3 / 10 then
      rewards ++ [randChoiceD
        ["Upgraded blaster", "Advanced comlink", "Stealth field generator",
         "Medical supplies", "Ship upgrade components"] r.equipChoice "Upgraded blaster"]
    else rewards
  if questType = "rescue" ∧ r.rAlly < 2 / 5 then rewards ++ ["New ally contact"] else rewards

/-- The try-protected body of `generate_procedural_quest`
(src/services/galaxy_service.py lines 112-213).  A `none` marks the
positions where the Python body raises (only `random.choice` on an
empty candidate list can): the exception is then caught by the
enclosing handler.  The two `random.random()` gates are drawn only
when the corresponding faction pool is non-empty, exactly as the
short-circuiting `and` does in the source. -/
def generate_procedural_quest_body (fs : List FactionState) (r : QuestRand) :
    Option Quest :=
  let high := fs.filter (fun f => 30 < f.reputation)
  let hostile := fs.filter (fun f => f.reputation < -30)
  (if hostile ≠ [] ∧ r.r1 < 2 / 5 then randChoice ["sabotage", "investigation"] r.typeChoice
   else if high ≠ [] ∧ r.r2 < 1 / 2 then randChoice ["delivery", "rescue"] r.typeChoice
   else randChoice ["delivery", "rescue", "sabotage", "investigation"] r.typeChoice).bind fun qt =>
  (if high ≠ [] then randChoice high r.giverChoice
   else randChoice fs r.giverChoice).bind fun giver =>
  (if hostile ≠ [] then randChoice hostile r.enemyChoice
   else randChoice (fs.filter (fun f => f ≠ giver)) r.enemyChoice).bind fun enemy =>
  (randChoice (questTitles qt) r.titleChoice).bind fun title =>
  (randChoice (questDescriptions qt) r.descChoice).bind fun descFn =>
  (randChoice ["Tatooine", "Coruscant", "Naboo", "Kashyyyk", "Ryloth"] r.locChoice).bind
    fun location =>
  some { title := title,
         qtype := qt,
         description := descFn giver.faction_name enemy.faction_name location,
         objectives := generate_quest_objectives qt giver.faction_name enemy.faction_name,
         rewards := generate_quest_rewards qt giver.reputation r,
         difficulty :=
           if 60 < enemy.awareness then "Hard"
           else if 30 < enemy.awareness then "Medium"
           else "Easy",
         faction_involvement := [giver.faction_name, enemy.faction_name] }

/-- The fixed default quest returned by the exception handler of
`generate_procedural_quest` (src/services/galaxy_service.py lines
218-226). -/
def routineMissionQuest : Quest :=
  { title := "Routine Mission",
    qtype := "delivery",
    description := "A simple transport job has become available.",
    objectives := ["Deliver package to destination", "Avoid Imperial patrols"],
    rewards := ["1000 credits", "Faction reputation +5"],
    difficulty := "Easy",
    faction_involvement := ["Independent"] }

/-- `generate_procedural_quest` (src/services/galaxy_service.py lines
108-226): the body, with any internal failure replaced by the default
Routine Mission quest. -/
def generate_procedural_quest (fs : List FactionState) (r : QuestRand) : Quest :=
  (generate_procedural_quest_body fs r).getD routineMissionQuest

/-! ## Multiplayer session manager
`src/services/session_manager.py`, `MultplayerSessionManager`. -/

/-- Python-dict assignment `m[k] = v`: replace the (unique) entry in
place if the key is present, else append the pair — insertion order is
preserved either way, as for a Python dict. -/
def dictSet {β : Type} (m : List (String × β)) (k : String) (v : β) : List (String × β) :=
  match m with
  | [] => [(k, v)]
  | p :: rest => if p.1 = k then (k, v) :: rest else p :: dictSet rest k v

/-- Python-dict lookup `m.get(k)`. -/
def dictGet {β : Type} (m : List (String × β)) (k : String) : Option β :=
  match m with
  | [] => none
  | p :: rest => if p.1 = k then some p.2 else dictGet rest k

/-- Session/global event dicts carry heterogeneous string-valued
fields; no rule inspects them beyond appending, so they are modelled
as generic field lists. -/
abbrev Event := List (String × String)

/-- One entry of `_calculate_action_ripples`
(src/services/session_manager.py lines 296-310). -/
structure Ripple where
  affected_player : String
  effect_type : String
  magnitude : Int
  description : String
  deriving Repr, DecidableEq

/-- The `PlayerState` dataclass (src/services/session_manager.py lines
12-23). -/
structure PlayerState where
  user_id : String
  character_name : String
  location : String
  force_alignment : List (String × ℚ)
  faction_standings : List (String × Int)
  active_quests : List String
  inventory : List (List (String × String))
  experience_points : Int
  session_join_time : String
  last_action_time : String
  deriving Repr

/-- One `active_conflicts` entry (src/services/session_manager.py
lines 228-243); the `type` key is spelled `ctype`. -/
structure Conflict where
  name : String
  factions : List String
  systems : List String
  intensity : ℚ
  ctype : String
  deriving Repr

/-- The `SessionWorldState` dataclass (src/services/session_manager.py
lines 25-35). -/
structure SessionWorldState where
  session_id : String
  galaxy_timestamp : String
  active_conflicts : List Conflict
  faction_control_map : List (String × List String)
  global_events : List Event
  shared_narrative : List Event
  session_master : String
  created_at : String
  last_updated : String
  deriving Repr

/-- The in-memory registries of `MultplayerSessionManager`
(src/services/session_manager.py lines 38-49): `active_sessions`,
`player_sessions` (player id to session id), `session_events`, and
the `major_events` log of `global_galaxy_state` (the only part of the
global state any embedded operation writes). -/
structure MState where
  active_sessions : List (String × SessionWorldState)
  player_sessions : List (String × String)
  session_events : List (String × List Event)
  global_major_events : List Event
  deriving Repr

/-- The `character_data` dict accepted by `join_session`; every key is
optional (`character_data.get`). -/
structure CharacterData where
  name : Option String
  starting_location : Option String
  force_alignment : Option (List (String × ℚ))
  faction_standings : Option (List (String × Int))
  inventory : Option (List (List (String × String)))
  experience : Option Int
  deriving Repr

/-- `_generate_faction_territories` (src/services/session_manager.py
lines 246-254). -/
def generate_faction_territories : List (String × List String) :=
  [("Empire", ["Coruscant", "Kuat", "Fondor", "Carida"]),
   ("Rebellion", ["Mon Cala", "Chandrila", "Ryloth", "Onderon"]),
   ("Corporate", ["Sullust", "Sluis Van", "Bothawui", "Malastare"]),
   ("Neutral", ["Tatooine", "Dagobah", "Hoth", "Kashyyyk"])]

/-- `_generate_initial_conflicts` (src/services/session_manager.py
lines 226-244); `i1`, `i2` are the `random.uniform` intensity draws. -/
def generate_initial_conflicts (i1 i2 : ℚ) : List Conflict :=
  [{ name := "Corporate Expansion Crisis", factions := ["Corporate", "Rebellion"],
     systems := ["Sullust", "Bothawui"], intensity := i1, ctype := "economic_warfare" },
   { name := "Imperial Remnant Operations", factions := ["Empire", "Rebellion"],
     systems := ["Endor", "Jakku"], intensity := i2, ctype := "military_conflict" }]

/-- `create_session` (src/services/session_manager.py lines 51-81). -/
def create_session (st : MState) (sid master : String) (eraChoice : Nat)
    (i1 i2 : ℚ) (now : String) : MState × SessionWorldState :=
  let era := "Galactic Standard Calendar: " ++ randChoiceD
    ["25 ABY - New Jedi Order Era", "4 ABY - New Republic Era", "0 BBY - Rebellion Era",
     "19 BBY - Dark Times", "22 BBY - Clone Wars"] eraChoice "25 ABY - New Jedi Order Era"
  let ws : SessionWorldState :=
    { session_id := sid, galaxy_timestamp := era,
      active_conflicts := generate_initial_conflicts i1 i2,
      faction_control_map := generate_faction_territories,
      global_events := [], shared_narrative := [], session_master := master,
      created_at := now, last_updated := now }
  let st1 : MState :=
    { st with
      active_sessions := dictSet st.active_sessions sid ws,
      session_events := dictSet st.session_events sid [],
      global_major_events := st.global_major_events ++
        [[("type", "session_created"), ("session_id", sid), ("timestamp", now),
          ("description", "New campaign begins in " ++ era ++ " era")]] }
  (st1, ws)

/-- `join_session` (src/services/session_manager.py lines 83-120).
The returned state carries the mutations the call performs before it
can raise; the returned `Except` is the call's outcome.  After linking
the player and appending the join broadcast event, line 117 invokes
`self._update_session_timestamp(session_id)` — a method defined
nowhere in the repository — so every call that reaches it raises
`AttributeError` instead of returning the built `PlayerState`. -/
def join_session (st : MState) (sid pid : String) (cd : CharacterData)
    (now : String) : MState × Except String PlayerState :=
  (dictGet st.active_sessions sid).elim
    (st, Except.error "ValueError: session does not exist") fun _ =>
    let ps : PlayerState :=
      { user_id := pid,
        character_name := cd.name.getD ("Player_" ++ pid),
        location := cd.starting_location.getD "Coruscant",
        force_alignment := cd.force_alignment.getD
          [("light", 0), ("dark", 0), ("balance", 100)],
        faction_standings := cd.faction_standings.getD
          [("Empire", 0), ("Rebellion", 0), ("Corporate", 0)],
        active_quests := [],
        inventory := cd.inventory.getD [],
        experience_points := cd.experience.getD 0,
        session_join_time := now, last_action_time := now }
    let st1 := { st with player_sessions := dictSet st.player_sessions pid sid }
    let joinEvent : Event :=
      [("type", "player_joined"), ("player_id", pid),
       ("character_name", ps.character_name), ("location", ps.location),
       ("timestamp", now),
       ("narrative_impact", ps.character_name ++ " emerges in the galaxy during troubled times")]
    (dictGet st1.session_events sid).elim
      (st1, Except.error "KeyError: session_events") fun evs =>
      let st2 := { st1 with session_events := dictSet st1.session_events sid (evs ++ [joinEvent]) }
      (st2, Except.error "AttributeError: _update_session_timestamp is not defined")

/-- The action dict accepted by `process_player_action`; every key is
read with `.get`. -/
structure PAction where
  ptype : Option String
  faction : Option String
  alignment : Option String
  destination : Option String
  deriving Repr

/-- The result dict built by `_execute_player_action`
(src/services/session_manager.py lines 256-284). -/
structure ActionResult where
  success : Bool
  experience_gained : Int
  faction_impact : List (String × Int)
  force_impact : List (String × Int)
  location_change : Option String
  discovery : Option String
  deriving Repr, DecidableEq

/-- Oracle for the random draws and collaborator responses of one
`process_player_action` call: the two experience rolls, the faction
and force impact rolls, the per-player ripple magnitude rolls, the
text-generation response (`none` on failure), and the timestamp. -/
structure ActionOracle where
  rexp1 : Int
  rexp2 : Int
  rFac : Int
  rForce : Int
  magF : String → Int
  magFo : String → Int
  aiNarrative : Option String
  now : String

/-- `_execute_player_action` (src/services/session_manager.py lines
256-284). -/
def execute_player_action (a : PAction) (o : ActionOracle) : ActionResult :=
  let base : ActionResult :=
    { success := true, experience_gained := o.rexp1, faction_impact := [],
      force_impact := [], location_change := none, discovery := none }
  let actionType := a.ptype.getD "unknown"
  if actionType = "faction_mission" then
    { base with faction_impact := [(a.faction.getD "Neutral", o.rFac)],
                experience_gained := o.rexp2 }
  else if actionType = "force_action" then
    { base with force_impact := [(a.alignment.getD "neutral", o.rForce)] }
  else if actionType = "exploration" then
    let dest := a.destination.getD "Unknown System"
    { base with location_change := some dest,
                discovery := some ("New area discovered: " ++ dest) }
  else base

/-- The other players of a session: every player id the
`player_sessions` index maps to this session, the acting player
excepted (src/services/session_manager.py line 291). -/
def sessionOtherPlayers (playerSessions : List (String × String))
    (sid acting : String) : List String :=
  (playerSessions.filter (fun p => p.2 = sid ∧ p.1 ≠ acting)).map (fun p => p.1)

/-- `_calculate_action_ripples` (src/services/session_manager.py lines
286-312).  `magF`/`magFo` supply the per-ripple `random.randint`
draws, keyed by the affected player. -/
def calculate_action_ripples (playerSessions : List (String × String))
    (sid acting : String) (result : ActionResult)
    (magF magFo : String → Int) : List Ripple :=
  let others := sessionOtherPlayers playerSessions sid acting
  (if result.faction_impact ≠ [] then
    others.map (fun p =>
      { affected_player := p, effect_type := "faction_reputation_shift",
        magnitude := magF p,
        description := "Political ripples from " ++ acting ++ "\x27s actions affect the galaxy" })
  else []) ++
  (if result.force_impact ≠ [] then
    others.map (fun p =>
      { affected_player := p, effect_type := "force_disturbance",
        magnitude := magFo p,
        description := "Force disturbance felt across the galaxy from " ++ acting ++ "\x27s actions" })
  else [])

/-- `_update_world_state` (src/services/session_manager.py lines
314-334).  The influenced-system name uses the length the faction's
territory list has after `setdefault` and before the append. -/
def update_world_state (ws : SessionWorldState) (a : PAction) (result : ActionResult)
    (now : String) : SessionWorldState :=
  let cmap := result.faction_impact.foldl (fun m fi =>
    if 10 < fi.2 then
      let cur := (dictGet m fi.1).getD []
      dictSet m fi.1 (cur ++ ["Influenced System " ++ toString cur.length])
    else m) ws.faction_control_map
  let gev :=
    if 40 < result.experience_gained then
      ws.global_events ++
        [[("type", "significant_player_action"), ("action", a.ptype.getD "unknown"),
          ("impact_level", "major"), ("timestamp", now)]]
    else ws.global_events
  { ws with faction_control_map := cmap, global_events := gev, last_updated := now }

/-- The dict returned by `process_player_action`
(src/services/session_manager.py lines 143-149). -/
structure ProcResult where
  action_result : ActionResult
  ripple_effects : List Ripple
  narrative_update : String
  updated_world_state : SessionWorldState
  session_events_tail : List Event
  deriving Repr

/-- `process_player_action` (src/services/session_manager.py lines
122-149): resolve the player's session through `player_sessions`,
execute the action, compute the ripples, fold the result into the
world state, and attach the narrative (the text collaborator's answer
or the static fallback). -/
def process_player_action (st : MState) (pid : String) (a : PAction)
    (o : ActionOracle) : MState × Except String ProcResult :=
  (dictGet st.player_sessions pid).elim
    (st, Except.error "ValueError: player not in any active session") fun sid =>
    (dictGet st.active_sessions sid).elim
      (st, Except.error "KeyError: active_sessions") fun ws =>
      let result := execute_player_action a o
      let ripples := calculate_action_ripples st.player_sessions sid pid result o.magF o.magFo
      let ws2 := update_world_state ws a result o.now
      let st2 := { st with active_sessions := dictSet st.active_sessions sid ws2 }
      let narrative := o.aiNarrative.getD
        ("The galaxy shifts subtly as " ++ pid ++ "\x27s actions ripple through the Force and galactic politics.")
      (dictGet st2.session_events sid).elim
        (st2, Except.error "KeyError: session_events") fun evs =>
        (st2, Except.ok
          { action_result := result, ripple_effects := ripples,
            narrative_update := narrative, updated_world_state := ws2,
            session_events_tail := evs.drop (evs.length - 5) })

/-- `_calculate_session_faction_balance` (src/services/
session_manager.py lines 353-364).  The starting dict presets
Empire/Rebellion/Corporate to 0.33; the loop overwrites every
non-Neutral faction of the control map with its territory count
divided by the total count over all factions — Neutral included
(`sum(len(t) for t in ... values() if t)`: the `if t` filter only
drops zero summands).  `none` models the `ZeroDivisionError` raised
when a non-Neutral faction is present and the total is zero. -/
def calculate_session_faction_balance (ws : SessionWorldState) :
    Option (List (String × ℚ)) :=
  let total : Int := (ws.faction_control_map.map (fun p => (p.2.length : Int))).sum
  if ws.faction_control_map.any (fun p => p.1 ≠ "Neutral") ∧ total = 0 then none
  else some (ws.faction_control_map.foldl
    (fun b p => if p.1 ≠ "Neutral" then dictSet b p.1 ((p.2.length : ℚ) / (total : ℚ)) else b)
    [("Empire", 33 / 100), ("Rebellion", 33 / 100), ("Corporate", 33 / 100)])

/-- `sync_session_state` (src/services/session_manager.py lines
151-175).  For an existing session the players, the balance and the
summary are computed read-only; building the result dict then invokes
`self._calculate_global_influence(session_id)` — a method defined
nowhere in the repository — so the call raises `AttributeError`
(or `ZeroDivisionError` first, inside the balance computation) and
never returns the assembled snapshot.  The state comes back untouched
in either case. -/
def sync_session_state (st : MState) (sid : String) : MState × Except String Unit :=
  (dictGet st.active_sessions sid).elim
    (st, Except.error "ValueError: session does not exist") fun ws =>
    (calculate_session_faction_balance ws).elim
      (st, Except.error "ZeroDivisionError") fun _ =>
      (st, Except.error "AttributeError: _calculate_global_influence is not defined")

/-! ## Concrete instances used by counterexamples and witnesses -/

/-- Profile constructor for concrete test inputs: the fields a claim
leaves unconstrained are fixed to harmless defaults. -/
def mkProfile (l d b : Int) (sens resist : ℚ) : ForceProfile :=
  { user_id := "user",
    light_side_points := l, dark_side_points := d, balance_points := b,
    current_alignment := ForceAlignment.balance,
    force_sensitivity := sens, moral_history := [], destiny_threads := [],
    corruption_resistance := resist, redemption_potential := 1 / 2 }

/-- Context with every optional key absent, as a caller passing
`{}` produces. -/
def emptyContext : ChoiceContext :=
  { ctype := none, description := none, consequence_level := none, faction_impacts := [] }

/-- A fixed past moral choice, used to give concrete profiles a
non-empty history. -/
def sampleChoice : MoralChoice :=
  { choice_id := "c0", description := "a past dilemma",
    alignment_shift_light := 10, alignment_shift_dark := -5,
    alignment_shift_balance := 5, narrative_weight := 1 / 2,
    consequence_level := MoralConsequence.minor,
    faction_impacts := [], force_echo := false }

/-- Concrete moral-choice run: a profile with Force sensitivity
0.6 (above the echo threshold) processes a light-side choice. -/
def c2RunProfile : ForceProfile := mkProfile 10 10 10 (3 / 5) (1 / 2)

/-- The run of `process_moral_choice` on `c2RunProfile` with an empty
context, the light selection and narrative-weight draw 0.5: the stored
profile and the call's outcome. -/
def c2Run : ForceProfile × Except String Unit :=
  process_moral_choice_profile c2RunProfile emptyContext "light" (1 / 2)

/-- The moral choice `_generate_contextual_choice` creates (and the
run appends to the history) for `c2RunProfile`. -/
def c2Choice : MoralChoice :=
  (generate_contextual_choice emptyContext "light" c2RunProfile (1 / 2)).getD sampleChoice

/-- Corruption-damping run: two profiles identical except for
corruption resistance 1 versus 0, both with Force sensitivity 0.4. -/
def c5ProfileA : ForceProfile := mkProfile 10 0 10 (2 / 5) 1

/-- The resistance-0 twin of `c5ProfileA`. -/
def c5ProfileB : ForceProfile := mkProfile 10 0 10 (2 / 5) 0

/-- The dark-aligned moral choice generated for a profile of Force
sensitivity 0.4: base shift 10 scaled by 1.2 gives a dark shift of 12
(light and balance each -6). -/
def c5Choice : MoralChoice :=
  { choice_id := "c5", description := "dark temptation",
    alignment_shift_light := -6, alignment_shift_dark := 12,
    alignment_shift_balance := -6, narrative_weight := 1 / 2,
    consequence_level := MoralConsequence.moderate,
    faction_impacts := [], force_echo := false }

/-- A lone faction standing used to exercise the quest generator. -/
def c7Faction : FactionState := ⟨"f7", "Hutt Cartel", "system", 0, 0, 500, []⟩

/-- A fixed quest-generator oracle. -/
def c7Rand : QuestRand :=
  { r1 := 1 / 2, r2 := 1 / 2, typeChoice := 0, giverChoice := 0, enemyChoice := 0,
    titleChoice := 0, descChoice := 0, locChoice := 0, credits := 1000,
    rRep := 1 / 2, rEquip := 1 / 2, equipChoice := 0, rAlly := 1 / 2 }

/-- A concrete session world used by the session-manager claims. -/
def c8World : SessionWorldState :=
  { session_id := "s1", galaxy_timestamp := "25 ABY", active_conflicts := [],
    faction_control_map := generate_faction_territories, global_events := [],
    shared_narrative := [], session_master := "gm", created_at := "t0", last_updated := "t0" }

/-- A manager state with one session and two joined players. -/
def c8State : MState :=
  { active_sessions := [("s1", c8World)],
    player_sessions := [("alice", "s1"), ("bob", "s1")],
    session_events := [("s1", [])],
    global_major_events := [] }

/-- A faction-mission action by the acting player. -/
def c8Action : PAction :=
  { ptype := some "faction_mission", faction := some "Empire",
    alignment := none, destination := none }

/-- A fixed oracle for one `process_player_action` call. -/
def c8Oracle : ActionOracle :=
  { rexp1 := 20, rexp2 := 50, rFac := 12, rForce := 10,
    magF := fun _ => 3, magFo := fun _ => 4, aiNarrative := none, now := "t1" }

/-- The result of Alice's faction mission in `c8State` (the call
succeeds). -/
def c8Res : ProcResult :=
  ((process_player_action c8State "alice" c8Action c8Oracle).2).toOption.getD
    ⟨⟨true, 0, [], [], none, none⟩, [], "", c8World, []⟩

/-- The value list computed by `_calculate_session_faction_balance` on
the initial territory map. -/
def c9Balance : List (String × ℚ) :=
  (calculate_session_faction_balance c8World).getD []

/-- A second session world, for the rejoin scenario. -/
def c10World2 : SessionWorldState := { c8World with session_id := "s2" }

/-- A manager state with two sessions where Bob is linked to `s1`. -/
def c10State : MState :=
  { active_sessions := [("s1", c8World), ("s2", c10World2)],
    player_sessions := [("bob", "s1")],
    session_events := [("s1", []), ("s2", [])],
    global_major_events := [] }

/-- Bob's attempt to join `s2` while linked to `s1`: state and
outcome. -/
def c10Join : MState × Except String PlayerState :=
  join_session c10State "s2" "bob" ⟨none, none, none, none, none, none⟩ "t2"

/-! ## Helper lemmas -/

/-- `pyInt` is the identity on integers. -/
theorem pyInt_intCast (n : Int) : pyInt ((n : ℚ)) = n := by
  unfold pyInt
  split_ifs with h
  · exact Int.floor_intCast n
  · rw [← Int.cast_neg, Int.floor_intCast]; ring

/-- The resource drift step never touches reputation, awareness, the
faction name or the operations list. -/
theorem updateResources_preserves (f : FactionState) :
    (updateResources f).reputation = f.reputation
    ∧ (updateResources f).awareness = f.awareness
    ∧ (updateResources f).faction_name = f.faction_name
    ∧ (updateResources f).active_operations = f.active_operations := by
  unfold updateResources
  split_ifs <;> exact ⟨rfl, rfl, rfl, rfl⟩

/-- The operations hysteresis step never touches reputation, awareness
or the faction name. -/
theorem updateOperations_preserves (f : FactionState) :
    (updateOperations f).reputation = f.reputation
    ∧ (updateOperations f).awareness = f.awareness
    ∧ (updateOperations f).faction_name = f.faction_name := by
  unfold updateOperations
  split_ifs <;> exact ⟨rfl, rfl, rfl⟩

/-- Every branch of the action-delta table changes reputation by a
value in [-15, 10], and awareness by a value in [-1, 15] that never
drives a non-negative awareness negative. -/
theorem applyActionDeltas_bounds (f : FactionState) (action : String)
    (ha : 0 ≤ f.awareness) :
    f.reputation - 15 ≤ (applyActionDeltas f action).reputation
    ∧ (applyActionDeltas f action).reputation ≤ f.reputation + 10
    ∧ 0 ≤ (applyActionDeltas f action).awareness
    ∧ (applyActionDeltas f action).awareness ≤ f.awareness + 15 := by
  unfold applyActionDeltas
  split_ifs <;> simp <;> omega

/-- Reputation and awareness after the passive tick, in closed form. -/
theorem passiveTick_rep_aw (f : FactionState) :
    (update_faction_ai f "passive_tick").reputation = f.reputation
    ∧ (update_faction_ai f "passive_tick").awareness
      = (if 0 < f.awareness then max 0 (f.awareness - 1) else f.awareness) := by
  unfold update_faction_ai
  obtain ⟨hr, ha, -, -⟩ := updateResources_preserves (applyActionDeltas f "passive_tick")
  obtain ⟨hr2, ha2, -⟩ := updateOperations_preserves
    (updateResources (applyActionDeltas f "passive_tick"))
  rw [hr2, ha2, hr, ha]
  have e : applyActionDeltas f "passive_tick"
      = if 0 < f.awareness then { f with awareness := max 0 (f.awareness - 1) } else f := rfl
  rw [e]
  split_ifs <;> simp

/-! ## C6 -/

/-- C6: applying `passive_tick` to any standing (awareness being
non-negative, as every stored standing's is) leaves reputation
unchanged and sets awareness to `max 0 (awareness - 1)`; awareness
never increases, awareness 0 is a fixed point, and `n` repetitions
leave awareness at `max 0 (awareness - n)`, monotonically approaching
0 and never passing below it. -/
theorem passive_tick_awareness_decay (f : FactionState) (h : 0 ≤ f.awareness) :
    (update_faction_ai f "passive_tick").reputation = f.reputation
    ∧ (update_faction_ai f "passive_tick").awareness = max 0 (f.awareness - 1)
    ∧ (update_faction_ai f "passive_tick").awareness ≤ f.awareness
    ∧ (f.awareness = 0 → (update_faction_ai f "passive_tick").awareness = f.awareness)
    ∧ (∀ n : Nat,
        ((fun g => update_faction_ai g "passive_tick")^[n] f).awareness
          = max 0 (f.awareness - n)) := by
  obtain ⟨hr, ha⟩ := passiveTick_rep_aw f
  have key : ∀ g : FactionState, 0 ≤ g.awareness →
      (update_faction_ai g "passive_tick").awareness = max 0 (g.awareness - 1) := by
    intro g hg
    obtain ⟨-, hag⟩ := passiveTick_rep_aw g
    rw [hag]
    split_ifs <;> omega
  refine ⟨hr, key f h, ?_, ?_, ?_⟩
  · rw [key f h]; omega
  · intro h0; rw [key f h, h0]; decide
  · intro n
    induction n with
    | zero => simpa using by omega
    | succ n ih =>
      rw [Function.iterate_succ_apply', key _ (by rw [ih]; omega), ih]
      push_cast
      omega

/-- Witness for C6 at a standing with awareness 5. -/
theorem passive_tick_awareness_decay_witness :
    (0 : Int) ≤ (⟨"f1", "Galactic Empire", "system", 40, 5, 500, []⟩ : FactionState).awareness
    ∧ (update_faction_ai ⟨"f1", "Galactic Empire", "system", 40, 5, 500, []⟩
        "passive_tick").reputation = 40
    ∧ (update_faction_ai ⟨"f1", "Galactic Empire", "system", 40, 5, 500, []⟩
        "passive_tick").awareness = max 0 (5 - 1) := by
  have h := passive_tick_awareness_decay
    ⟨"f1", "Galactic Empire", "system", 40, 5, 500, []⟩ (by decide)
  exact ⟨by decide, h.1, h.2.1⟩

/-! ## C1 -/

/-- C1 counterexample: `update_faction_ai` itself performs no clamping.
Starting from the in-bounds standing (reputation 95, awareness 98) of
the Galactic Empire, `help_empire` returns reputation 105 and
awareness 103, outside [-100, 100] and [0, 100]. -/
theorem update_faction_ai_no_clamp_cex :
    (-100 ≤ (⟨"f1", "Galactic Empire", "system", 95, 98, 500, []⟩ : FactionState).reputation
      ∧ (⟨"f1", "Galactic Empire", "system", 95, 98, 500, []⟩ : FactionState).reputation ≤ 100
      ∧ 0 ≤ (⟨"f1", "Galactic Empire", "system", 95, 98, 500, []⟩ : FactionState).awareness
      ∧ (⟨"f1", "Galactic Empire", "system", 95, 98, 500, []⟩ : FactionState).awareness ≤ 100)
    ∧ (update_faction_ai ⟨"f1", "Galactic Empire", "system", 95, 98, 500, []⟩
        "help_empire").reputation = 105
    ∧ ¬ ((update_faction_ai ⟨"f1", "Galactic Empire", "system", 95, 98, 500, []⟩
        "help_empire").reputation ≤ 100)
    ∧ (update_faction_ai ⟨"f1", "Galactic Empire", "system", 95, 98, 500, []⟩
        "help_empire").awareness = 103
    ∧ ¬ ((update_faction_ai ⟨"f1", "Galactic Empire", "system", 95, 98, 500, []⟩
        "help_empire").awareness ≤ 100) := by
  decide

/-- C1 amended: `update_faction_ai` applies its fixed deltas without
re-clamping, so from an in-bounds standing the result can leave the
bounds by up to the delta magnitude (reputation stays in [-115, 110],
awareness in [0, 115]); the [-100, 100] / [0, 100] clamping is
performed by the `update_faction_reputation` route, whose clamps
always land in bounds regardless of delta magnitude or sign and are
no-ops on already-clamped values. -/
theorem faction_deltas_bounded_and_route_clamps (f : FactionState)
    (action : String) (x drep daw : Int)
    (hr1 : -100 ≤ f.reputation) (hr2 : f.reputation ≤ 100)
    (ha1 : 0 ≤ f.awareness) (ha2 : f.awareness ≤ 100) :
    (-115 ≤ (update_faction_ai f action).reputation
      ∧ (update_faction_ai f action).reputation ≤ 110
      ∧ 0 ≤ (update_faction_ai f action).awareness
      ∧ (update_faction_ai f action).awareness ≤ 115)
    ∧ (-100 ≤ clampReputation x ∧ clampReputation x ≤ 100
      ∧ 0 ≤ clampAwareness x ∧ clampAwareness x ≤ 100)
    ∧ ((-100 ≤ x → x ≤ 100 → clampReputation x = x)
      ∧ (0 ≤ x → x ≤ 100 → clampAwareness x = x)
      ∧ clampReputation (clampReputation x) = clampReputation x
      ∧ clampAwareness (clampAwareness x) = clampAwareness x)
    ∧ (-100 ≤ (update_faction_reputation_apply f drep daw).reputation
      ∧ (update_faction_reputation_apply f drep daw).reputation ≤ 100
      ∧ 0 ≤ (update_faction_reputation_apply f drep daw).awareness
      ∧ (update_faction_reputation_apply f drep daw).awareness ≤ 100) := by
  obtain ⟨b1, b2, b3, b4⟩ := applyActionDeltas_bounds f action ha1
  obtain ⟨p1, p2, -, -⟩ := updateResources_preserves (applyActionDeltas f action)
  obtain ⟨q1, q2, -⟩ := updateOperations_preserves (updateResources (applyActionDeltas f action))
  have hrep : (update_faction_ai f action).reputation = (applyActionDeltas f action).reputation := by
    unfold update_faction_ai; rw [q1, p1]
  have haw : (update_faction_ai f action).awareness = (applyActionDeltas f action).awareness := by
    unfold update_faction_ai; rw [q2, p2]
  refine ⟨⟨?_, ?_, ?_, ?_⟩, ?_, ?_, ?_⟩ <;>
    simp only [hrep, haw, update_faction_reputation_apply, clampReputation, clampAwareness] <;>
    omega

/-- Witness for C1's amended theorem at a concrete standing, action,
clamp input and route deltas. -/
theorem faction_deltas_bounded_and_route_clamps_witness :
    (-115 ≤ (update_faction_ai ⟨"f2", "Rebel Alliance", "system", -95, 99, 500, []⟩
        "piracy").reputation
      ∧ (update_faction_ai ⟨"f2", "Rebel Alliance", "system", -95, 99, 500, []⟩
        "piracy").reputation ≤ 110
      ∧ 0 ≤ (update_faction_ai ⟨"f2", "Rebel Alliance", "system", -95, 99, 500, []⟩
        "piracy").awareness
      ∧ (update_faction_ai ⟨"f2", "Rebel Alliance", "system", -95, 99, 500, []⟩
        "piracy").awareness ≤ 115)
    ∧ (-100 ≤ clampReputation 250 ∧ clampReputation 250 ≤ 100
      ∧ 0 ≤ clampAwareness 250 ∧ clampAwareness 250 ≤ 100)
    ∧ ((-100 ≤ (250 : Int) → (250 : Int) ≤ 100 → clampReputation 250 = 250)
      ∧ (0 ≤ (250 : Int) → (250 : Int) ≤ 100 → clampAwareness 250 = 250)
      ∧ clampReputation (clampReputation 250) = clampReputation 250
      ∧ clampAwareness (clampAwareness 250) = clampAwareness 250)
    ∧ (-100 ≤ (update_faction_reputation_apply
          ⟨"f2", "Rebel Alliance", "system", -95, 99, 500, []⟩ 1000 (-1000)).reputation
      ∧ (update_faction_reputation_apply
          ⟨"f2", "Rebel Alliance", "system", -95, 99, 500, []⟩ 1000 (-1000)).reputation ≤ 100
      ∧ 0 ≤ (update_faction_reputation_apply
          ⟨"f2", "Rebel Alliance", "system", -95, 99, 500, []⟩ 1000 (-1000)).awareness
      ∧ (update_faction_reputation_apply
          ⟨"f2", "Rebel Alliance", "system", -95, 99, 500, []⟩ 1000 (-1000)).awareness ≤ 100) :=
  faction_deltas_bounded_and_route_clamps
    ⟨"f2", "Rebel Alliance", "system", -95, 99, 500, []⟩ "piracy" 250 1000 (-1000)
    (by decide) (by decide) (by decide) (by decide)

/-! ## C4 -/

/-- C2 counterexample: the run `c2Run` (sensitivity 0.6 > 0.5) appends
to the history a choice with `force_echo` true, yet the stored
profile's `force_sensitivity` is still exactly 0.6 — not strictly
greater than before the call.  Indeed the call never even returns a
result carrying a sensitivity change: it raises `AttributeError` from
the undefined `_generate_force_echoes`. -/
theorem sensitivity_not_stored_cex :
    c2Run.1.force_sensitivity = 3 / 5
    ∧ c2RunProfile.force_sensitivity = 3 / 5
    ∧ ¬ ((3 : ℚ) / 5 > (3 : ℚ) / 5)
    ∧ c2Run.1.moral_history.map (fun c => c.force_echo) = [true]
    ∧ c2Run.2 = Except.error "AttributeError: _generate_force_echoes is not defined" := by
  refine ⟨rfl, rfl, by norm_num, ?_, rfl⟩
  have e : c2Run.1.moral_history.map (fun c => c.force_echo)
      = [decide ((3 / 5 : ℚ) > 1 / 2)] := rfl
  rw [e]
  norm_num

/-- C2 amended: the choice created by `_generate_contextual_choice`
(and appended to the profile's history) has `force_echo` true iff the
profile's sensitivity exceeds 0.5; the stored `force_sensitivity` is
left exactly unchanged by `process_moral_choice` (so it never
decreases — and never strictly increases either); and the call never
returns: after applying the shifts, appending the choice and updating
the alignment it raises `AttributeError` from the undefined
`_generate_force_echoes`, so the `force_sensitivity_change` that the
defined `_calculate_sensitivity_change` would report (the [0.01, 0.05]
draw on an echo, 0 otherwise) never reaches a caller. -/
theorem force_echo_iff_and_sensitivity_unchanged
    (p : ForceProfile) (ctx : ChoiceContext) (selected : String)
    (nw echoDraw : ℚ) (c : MoralChoice)
    (hg : generate_contextual_choice ctx selected p nw = some c)
    (h1 : 1 / 100 ≤ echoDraw) (h2 : echoDraw ≤ 1 / 20) :
    (c.force_echo = true ↔ p.force_sensitivity > 1 / 2)
    ∧ (process_moral_choice_profile p ctx selected nw).1.force_sensitivity
      = p.force_sensitivity
    ∧ ¬ (process_moral_choice_profile p ctx selected nw).1.force_sensitivity
      < p.force_sensitivity
    ∧ (process_moral_choice_profile p ctx selected nw).1.moral_history
      = p.moral_history ++ [c]
    ∧ (process_moral_choice_profile p ctx selected nw).2
      = Except.error "AttributeError: _generate_force_echoes is not defined"
    ∧ (c.force_echo = true → calculate_sensitivity_change c echoDraw = echoDraw
        ∧ 1 / 100 ≤ calculate_sensitivity_change c echoDraw
        ∧ calculate_sensitivity_change c echoDraw ≤ 1 / 20)
    ∧ (c.force_echo = false → calculate_sensitivity_change c echoDraw = 0) := by
  have hecho : c.force_echo = decide (p.force_sensitivity > 1 / 2) := by
    unfold generate_contextual_choice at hg
    cases hm : MoralConsequence.ofString (ctx.consequence_level.getD "moderate") with
    | none => rw [hm] at hg; simp at hg
    | some lvl =>
      rw [hm] at hg
      simp only [Option.map_some', Option.some.injEq] at hg
      rw [← hg]
  have hrun : process_moral_choice_profile p ctx selected nw
      = (update_alignment_status
          { apply_force_shifts p c with
              moral_history := (apply_force_shifts p c).moral_history ++ [c] },
         Except.error "AttributeError: _generate_force_echoes is not defined") := by
    unfold process_moral_choice_profile
    rw [hg]
    rfl
  refine ⟨?_, ?_, ?_, ?_, ?_, ?_, ?_⟩
  · rw [hecho]; simp [decide_eq_true_iff]
  · rw [hrun]; rfl
  · rw [hrun]; exact lt_irrefl p.force_sensitivity
  · rw [hrun]; rfl
  · rw [hrun]
  · intro he
    have hc : calculate_sensitivity_change c echoDraw = echoDraw := by
      simp [calculate_sensitivity_change, he]
    exact ⟨hc, by rw [hc]; exact h1, by rw [hc]; exact h2⟩
  · intro he
    simp [calculate_sensitivity_change, he]

/-- Witness for C2's amended theorem on the concrete run `c2Run`. -/
theorem force_echo_iff_and_sensitivity_unchanged_witness :
    (c2Choice.force_echo = true ↔ c2RunProfile.force_sensitivity > 1 / 2)
    ∧ c2Run.1.force_sensitivity = c2RunProfile.force_sensitivity
    ∧ ¬ c2Run.1.force_sensitivity < c2RunProfile.force_sensitivity
    ∧ c2Run.1.moral_history = c2RunProfile.moral_history ++ [c2Choice]
    ∧ c2Run.2 = Except.error "AttributeError: _generate_force_echoes is not defined"
    ∧ (c2Choice.force_echo = true → calculate_sensitivity_change c2Choice (3 / 100) = 3 / 100
        ∧ 1 / 100 ≤ calculate_sensitivity_change c2Choice (3 / 100)
        ∧ calculate_sensitivity_change c2Choice (3 / 100) ≤ 1 / 20)
    ∧ (c2Choice.force_echo = false → calculate_sensitivity_change c2Choice (3 / 100) = 0) :=
  force_echo_iff_and_sensitivity_unchanged c2RunProfile emptyContext "light"
    (1 / 2) (3 / 100) c2Choice rfl (by norm_num) (by norm_num)

/-! ## C3 -/

/-- C3 counterexample: an unrecognised consequence-severity selector is
not treated as a no-op or default — `MoralConsequence("catastrophic")`
raises `ValueError` inside `_generate_contextual_choice` — and even a
fully recognised input produces no result: the call then raises
`AttributeError` from the undefined `_generate_force_echoes`.  Either
way `process_moral_choice` never returns a minimal valid result. -/
theorem unknown_consequence_level_fails_cex :
    MoralConsequence.ofString "catastrophic" = none
    ∧ process_moral_choice_profile (mkProfile 10 10 10 (1 / 2) (1 / 2))
        { emptyContext with consequence_level := some "catastrophic" } "light" (1 / 2)
      = (mkProfile 10 10 10 (1 / 2) (1 / 2),
         Except.error "ValueError: invalid consequence_level")
    ∧ (process_moral_choice_profile (mkProfile 10 10 10 (1 / 2) (1 / 2)) emptyContext
        "light" (1 / 2)).2
      = Except.error "AttributeError: _generate_force_echoes is not defined" :=
  ⟨rfl, rfl, rfl⟩

/-- C3 amended: unknown enumeration values fall through to defaults in
the faction engine (an unrecognised action changes neither reputation
nor awareness) and in the choice generator (an unrecognised alignment
selector takes the balance branch, an unrecognised choice type only
falls back to the default template); but `process_moral_choice` is not
total at all: an unrecognised `consequence_level` string raises
`ValueError` before any mutation, and every call that passes choice
generation raises `AttributeError` from the undefined
`_generate_force_echoes` — no `process_moral_choice` call returns a
result. -/
theorem unknown_enum_defaults (f : FactionState) (action : String)
    (ctx : ChoiceContext) (selected : String) (p : ForceProfile)
    (nw : ℚ) (lvl : MoralConsequence) (s : String)
    (hact : action ∉ ["help_empire", "help_rebels", "smuggling",
      "bounty_hunting", "piracy", "passive_tick"])
    (hsel : selected ∉ ["light", "dark"])
    (hcons : MoralConsequence.ofString (ctx.consequence_level.getD "moderate") = some lvl)
    (hs : MoralConsequence.ofString s = none) :
    ((update_faction_ai f action).reputation = f.reputation
      ∧ (update_faction_ai f action).awareness = f.awareness)
    ∧ ((generate_contextual_choice ctx selected p nw).map
        (fun c => (c.alignment_shift_light, c.alignment_shift_dark,
          c.alignment_shift_balance, c.consequence_level)))
      = some (0, 0, pyInt ((10 : ℚ) * (1 + p.force_sensitivity * (1 / 2))), lvl)
    ∧ process_moral_choice_profile p { ctx with consequence_level := some s }
        selected nw = (p, Except.error "ValueError: invalid consequence_level")
    ∧ (process_moral_choice_profile p ctx selected nw).2
      = Except.error "AttributeError: _generate_force_echoes is not defined" := by
  have hd : applyActionDeltas f action = f := by
    unfold applyActionDeltas
    split_ifs <;> simp_all
  have hs1 : ¬ selected = "light" := by simp at hsel; exact hsel.1
  have hs2 : ¬ selected = "dark" := by simp at hsel; exact hsel.2
  refine ⟨?_, ?_, ?_, ?_⟩
  · obtain ⟨p1, p2, -, -⟩ := updateResources_preserves (applyActionDeltas f action)
    obtain ⟨q1, q2, -⟩ := updateOperations_preserves (updateResources (applyActionDeltas f action))
    unfold update_faction_ai
    rw [q1, p1, q2, p2, hd]
    exact ⟨rfl, rfl⟩
  · unfold generate_contextual_choice
    rw [hcons]
    simp only [Option.map_some', if_neg hs1, if_neg hs2]
    simp only [Option.some.injEq, Prod.mk.injEq]
    norm_num [pyInt]
  · have hg : generate_contextual_choice { ctx with consequence_level := some s }
        selected p nw = none := by
      unfold generate_contextual_choice
      have he : (({ ctx with consequence_level := some s } :
          ChoiceContext).consequence_level.getD "moderate") = s := rfl
      rw [he, hs]
      rfl
    unfold process_moral_choice_profile
    rw [hg]
    rfl
  · unfold process_moral_choice_profile generate_contextual_choice
    rw [hcons]
    rfl

/-- Witness for C3's amended theorem: the unknown action "meditate",
the unknown selector "negotiate", a context with no declared
consequence level (defaulting to moderate), and the unknown severity
string "catastrophic". -/
theorem unknown_enum_defaults_witness :
    ((update_faction_ai ⟨"f3", "Galactic Empire", "system", 20, 40, 500, []⟩
        "meditate").reputation
        = (⟨"f3", "Galactic Empire", "system", 20, 40, 500, []⟩ : FactionState).reputation
      ∧ (update_faction_ai ⟨"f3", "Galactic Empire", "system", 20, 40, 500, []⟩
        "meditate").awareness
        = (⟨"f3", "Galactic Empire", "system", 20, 40, 500, []⟩ : FactionState).awareness)
    ∧ ((generate_contextual_choice emptyContext "negotiate"
          (mkProfile 10 10 10 (1 / 2) (1 / 2)) (1 / 2)).map
        (fun c => (c.alignment_shift_light, c.alignment_shift_dark,
          c.alignment_shift_balance, c.consequence_level)))
      = some (0, 0,
          pyInt ((10 : ℚ) * (1 + (mkProfile 10 10 10 (1 / 2) (1 / 2)).force_sensitivity * (1 / 2))),
          MoralConsequence.moderate)
    ∧ process_moral_choice_profile (mkProfile 10 10 10 (1 / 2) (1 / 2))
        { emptyContext with consequence_level := some "catastrophic" } "negotiate" (1 / 2)
      = (mkProfile 10 10 10 (1 / 2) (1 / 2),
         Except.error "ValueError: invalid consequence_level")
    ∧ (process_moral_choice_profile (mkProfile 10 10 10 (1 / 2) (1 / 2)) emptyContext
        "negotiate" (1 / 2)).2
      = Except.error "AttributeError: _generate_force_echoes is not defined" :=
  unknown_enum_defaults ⟨"f3", "Galactic Empire", "system", 20, 40, 500, []⟩ "meditate"
    emptyContext "negotiate" (mkProfile 10 10 10 (1 / 2) (1 / 2)) (1 / 2)
    MoralConsequence.moderate "catastrophic" (by decide) (by decide) rfl rfl

/-! ## C5 -/

/-- C5 counterexample: two profiles identical except corruption
resistance (1.0 versus 0.0), with Force sensitivity 0.4, for which
`_generate_contextual_choice` builds the same dark choice with the
common undamped dark shift 12.  Applying the resulting shifts
(`_apply_force_shifts`, reached by `process_moral_choice` before its
line-128 `AttributeError`) gains 8 dark points under resistance 1.0
versus 12 under resistance 0.0 — and 8 is not exactly 0.7 × 12 = 8.4:
the `int(...)` truncation after damping breaks the
exact-30%-reduction equality (clamping plays no role: both profiles
start at 0 dark points and both sums lie inside [0, 100]). -/
theorem corruption_damping_truncation_cex :
    c5ProfileA = { c5ProfileB with corruption_resistance := 1 }
    ∧ (generate_contextual_choice emptyContext "dark" c5ProfileA (1 / 2)).map
        (fun c => c.alignment_shift_dark) = some c5Choice.alignment_shift_dark
    ∧ (generate_contextual_choice emptyContext "dark" c5ProfileB (1 / 2)).map
        (fun c => c.alignment_shift_dark) = some c5Choice.alignment_shift_dark
    ∧ c5Choice.alignment_shift_dark = 12
    ∧ c5ProfileA.dark_side_points = 0
    ∧ c5ProfileB.dark_side_points = 0
    ∧ (apply_force_shifts c5ProfileA c5Choice).dark_side_points = 8
    ∧ (apply_force_shifts c5ProfileB c5Choice).dark_side_points = 12
    ∧ (8 : ℚ) ≠ (7 / 10) * 12
    ∧ (8 : ℚ) ≠ 12 - (3 / 10) * 12 := by
  refine ⟨rfl, ?_, ?_, rfl, rfl, rfl, ?_, ?_, by norm_num, by norm_num⟩
  · have e : (generate_contextual_choice emptyContext "dark" c5ProfileA (1 / 2)).map
        (fun c => c.alignment_shift_dark)
        = some (pyInt (((10 : Int) : ℚ) * (1 + (2 / 5 : ℚ) * (1 / 2)))) := rfl
    rw [e]
    norm_num [pyInt, c5Choice]
  · have e : (generate_contextual_choice emptyContext "dark" c5ProfileB (1 / 2)).map
        (fun c => c.alignment_shift_dark)
        = some (pyInt (((10 : Int) : ℚ) * (1 + (2 / 5 : ℚ) * (1 / 2)))) := rfl
    rw [e]
    norm_num [pyInt, c5Choice]
  · have e : (apply_force_shifts c5ProfileA c5Choice).dark_side_points
        = max 0 (min 100 ((0 : Int) +
            pyInt (((12 : Int) : ℚ) * (1 - (1 : ℚ) * (3 / 10))))) := rfl
    rw [e]
    have i : pyInt (((12 : Int) : ℚ) * (1 - (1 : ℚ) * (3 / 10))) = 8 := by
      norm_num [pyInt]
    rw [i]
    decide
  · have e : (apply_force_shifts c5ProfileB c5Choice).dark_side_points
        = max 0 (min 100 ((0 : Int) +
            pyInt (((12 : Int) : ℚ) * (1 - (0 : ℚ) * (3 / 10))))) := rfl
    rw [e]
    have i : pyInt (((12 : Int) : ℚ) * (1 - (0 : ℚ) * (3 / 10))) = 12 := by
      norm_num [pyInt]
    rw [i]
    decide

/-- C5 amended: the dark delta is damped by the factor
`(1 - corruption_resistance * 0.3)` before truncation and addition.
With resistance 1.0 the pre-truncation damped shift is exactly
0.7 × shift and the applied delta is `int(0.7 × shift)` (clamping not
binding); with resistance 0.0 the applied delta is the shift itself.
The two applied deltas stand in an exact 0.7 ratio only when
0.7 × shift is an integer — so for the base shift 10 (7 versus 10)
but not for shift 12 (8 versus 12). -/
theorem corruption_damping_factor (pA pB : ForceProfile) (c : MoralChoice)
    (hA : pA.corruption_resistance = 1) (hB : pB.corruption_resistance = 0)
    (hd : pA.dark_side_points = pB.dark_side_points)
    (h1 : 0 ≤ pA.dark_side_points + pyInt ((7 / 10) * (c.alignment_shift_dark : ℚ)))
    (h2 : pA.dark_side_points + pyInt ((7 / 10) * (c.alignment_shift_dark : ℚ)) ≤ 100)
    (h3 : 0 ≤ pB.dark_side_points + c.alignment_shift_dark)
    (h4 : pB.dark_side_points + c.alignment_shift_dark ≤ 100) :
    ((c.alignment_shift_dark : ℚ) * (1 - pA.corruption_resistance * (3 / 10))
      = (7 / 10) * (c.alignment_shift_dark : ℚ))
    ∧ ((c.alignment_shift_dark : ℚ) * (1 - pB.corruption_resistance * (3 / 10))
      = (c.alignment_shift_dark : ℚ))
    ∧ (apply_force_shifts pA c).dark_side_points - pA.dark_side_points
      = pyInt ((7 / 10) * (c.alignment_shift_dark : ℚ))
    ∧ (apply_force_shifts pB c).dark_side_points - pB.dark_side_points
      = c.alignment_shift_dark
    ∧ (pyInt ((7 / 10) * ((10 : Int) : ℚ)) = 7 ∧ (7 : ℚ) = (7 / 10) * ((10 : Int) : ℚ))
    ∧ pyInt ((7 / 10) * ((12 : Int) : ℚ)) = 8
    ∧ ¬ ((8 : ℚ) = (7 / 10) * ((12 : Int) : ℚ)) := by
  have e1 : (c.alignment_shift_dark : ℚ) * (1 - pA.corruption_resistance * (3 / 10))
      = (7 / 10) * (c.alignment_shift_dark : ℚ) := by rw [hA]; ring
  have e2 : (c.alignment_shift_dark : ℚ) * (1 - pB.corruption_resistance * (3 / 10))
      = (c.alignment_shift_dark : ℚ) := by rw [hB]; ring
  have f3 : (apply_force_shifts pA c).dark_side_points
      = max 0 (min 100 (pA.dark_side_points + pyInt ((7 / 10) * (c.alignment_shift_dark : ℚ)))) := by
    simp only [apply_force_shifts]
    rw [e1]
  have f4 : (apply_force_shifts pB c).dark_side_points
      = max 0 (min 100 (pB.dark_side_points + c.alignment_shift_dark)) := by
    simp only [apply_force_shifts]
    rw [e2, pyInt_intCast]
  refine ⟨e1, e2, ?_, ?_, ⟨?_, ?_⟩, ?_, ?_⟩
  · rw [f3]; omega
  · rw [f4]; omega
  · norm_num [pyInt]
  · norm_num
  · norm_num [pyInt]
  · norm_num

/-- Witness for C5's amended theorem on the concrete resistance-1 and
resistance-0 profiles and the sensitivity-0.4 dark choice (shift 12). -/
theorem corruption_damping_factor_witness :
    ((c5Choice.alignment_shift_dark : ℚ) * (1 - c5ProfileA.corruption_resistance * (3 / 10))
      = (7 / 10) * (c5Choice.alignment_shift_dark : ℚ))
    ∧ ((c5Choice.alignment_shift_dark : ℚ) * (1 - c5ProfileB.corruption_resistance * (3 / 10))
      = (c5Choice.alignment_shift_dark : ℚ))
    ∧ (apply_force_shifts c5ProfileA c5Choice).dark_side_points - c5ProfileA.dark_side_points
      = pyInt ((7 / 10) * (c5Choice.alignment_shift_dark : ℚ))
    ∧ (apply_force_shifts c5ProfileB c5Choice).dark_side_points - c5ProfileB.dark_side_points
      = c5Choice.alignment_shift_dark
    ∧ (pyInt ((7 / 10) * ((10 : Int) : ℚ)) = 7 ∧ (7 : ℚ) = (7 / 10) * ((10 : Int) : ℚ))
    ∧ pyInt ((7 / 10) * ((12 : Int) : ℚ)) = 8
    ∧ ¬ ((8 : ℚ) = (7 / 10) * ((12 : Int) : ℚ)) :=
  corruption_damping_factor c5ProfileA c5ProfileB c5Choice rfl rfl rfl
    (by norm_num [pyInt, c5Choice, c5ProfileA, mkProfile])
    (by norm_num [pyInt, c5Choice, c5ProfileA, mkProfile])
    (by norm_num [c5Choice, c5ProfileB, mkProfile])
    (by norm_num [c5Choice, c5ProfileB, mkProfile])

/-- A successful `random.choice` always picks a member of the list. -/
theorem randChoice_mem {α : Type} {l : List α} {i : Nat} {x : α}
    (h : randChoice l i = some x) : x ∈ l := by
  unfold randChoice at h
  exact List.get?_mem h

/-! ## C7 -/

/-- C7: for any faction list and any draws the generator returns a
quest of the declared shape (one of the four base types, a difficulty
among Easy/Medium/Hard, a non-empty faction involvement), and whenever
the try-protected body fails internally the result is exactly the
fixed Routine Mission default (title "Routine Mission", type delivery,
difficulty Easy, faction involvement ["Independent"]). -/
theorem quest_generator_total_with_default (fs : List FactionState) (r : QuestRand)
    (_hfs : fs ≠ []) :
    (routineMissionQuest.title = "Routine Mission"
      ∧ routineMissionQuest.qtype = "delivery"
      ∧ routineMissionQuest.difficulty = "Easy"
      ∧ routineMissionQuest.faction_involvement = ["Independent"])
    ∧ (generate_procedural_quest_body fs r = none →
        generate_procedural_quest fs r = routineMissionQuest)
    ∧ (generate_procedural_quest fs r).qtype ∈ ["delivery", "rescue", "sabotage", "investigation"]
    ∧ (generate_procedural_quest fs r).difficulty ∈ ["Easy", "Medium", "Hard"]
    ∧ (generate_procedural_quest fs r).faction_involvement ≠ [] := by
  refine ⟨⟨rfl, rfl, rfl, rfl⟩, ?_, ?_⟩
  · intro hb
    unfold generate_procedural_quest
    rw [hb]
    rfl
  · cases hb : generate_procedural_quest_body fs r with
    | none =>
      unfold generate_procedural_quest
      rw [hb]
      exact ⟨by decide, by decide, by decide⟩
    | some q =>
      have hq : generate_procedural_quest fs r = q := by
        unfold generate_procedural_quest
        rw [hb]
        rfl
      rw [hq]
      unfold generate_procedural_quest_body at hb
      simp only [Option.bind_eq_some, Option.some.injEq] at hb
      obtain ⟨qt, hqt, giver, hgiver, enemy, henemy, title, htitle,
        descFn, hdesc, location, hloc, hqeq⟩ := hb
      have hqtmem : qt ∈ ["delivery", "rescue", "sabotage", "investigation"] := by
        split at hqt
        · have h' := randChoice_mem hqt
          simp at h' ⊢
          tauto
        · split at hqt
          · have h' := randChoice_mem hqt
            simp at h' ⊢
            tauto
          · exact randChoice_mem hqt
      subst hqeq
      refine ⟨hqtmem, ?_, by simp⟩
      split_ifs <;> simp

/-- Witness for C7 on a one-faction list (where the enemy pick indeed
fails internally and the default is returned). -/
theorem quest_generator_total_with_default_witness :
    (routineMissionQuest.title = "Routine Mission"
      ∧ routineMissionQuest.qtype = "delivery"
      ∧ routineMissionQuest.difficulty = "Easy"
      ∧ routineMissionQuest.faction_involvement = ["Independent"])
    ∧ (generate_procedural_quest_body [c7Faction] c7Rand = none →
        generate_procedural_quest [c7Faction] c7Rand = routineMissionQuest)
    ∧ (generate_procedural_quest [c7Faction] c7Rand).qtype
        ∈ ["delivery", "rescue", "sabotage", "investigation"]
    ∧ (generate_procedural_quest [c7Faction] c7Rand).difficulty ∈ ["Easy", "Medium", "Hard"]
    ∧ (generate_procedural_quest [c7Faction] c7Rand).faction_involvement ≠ [] :=
  quest_generator_total_with_default [c7Faction] c7Rand (by decide)

/-! ## C8 -/

/-- Counting specification of `_calculate_action_ripples`: with a
well-formed player index (no duplicate player keys), each dimension
contributes exactly one ripple per other session member when its
impact map is non-empty, the acting player is never an affected
player, and a lone actor yields no ripples. -/
theorem ripples_spec (ps : List (String × String)) (sid acting : String)
    (result : ActionResult) (magF magFo : String → Int) (q : String)
    (hnodup : (ps.map Prod.fst).Nodup) :
    ((calculate_action_ripples ps sid acting result magF magFo).countP
        (fun rp => rp.affected_player == q && rp.effect_type == "faction_reputation_shift")
      = if result.faction_impact ≠ [] ∧ q ∈ sessionOtherPlayers ps sid acting then 1 else 0)
    ∧ ((calculate_action_ripples ps sid acting result magF magFo).countP
        (fun rp => rp.affected_player == q && rp.effect_type == "force_disturbance")
      = if result.force_impact ≠ [] ∧ q ∈ sessionOtherPlayers ps sid acting then 1 else 0)
    ∧ acting ∉ (calculate_action_ripples ps sid acting result magF magFo).map
        (fun rp => rp.affected_player)
    ∧ (sessionOtherPlayers ps sid acting = [] →
        calculate_action_ripples ps sid acting result magF magFo = []) := by
  have hothers : (sessionOtherPlayers ps sid acting).Nodup := by
    unfold sessionOtherPlayers
    exact hnodup.sublist ((List.filter_sublist ps).map Prod.fst)
  have hcp : ∀ x : String, (sessionOtherPlayers ps sid acting).countP (fun y => y == x)
      = if x ∈ sessionOtherPlayers ps sid acting then 1 else 0 := by
    intro x
    rw [← List.count_eq_countP]
    split_ifs with hx
    · exact List.count_eq_one_of_mem hothers hx
    · exact List.count_eq_zero.mpr hx
  have hnotacting : acting ∉ sessionOtherPlayers ps sid acting := by
    unfold sessionOtherPlayers
    intro hmem
    obtain ⟨p, hp, hpe⟩ := List.mem_map.mp hmem
    have := List.of_mem_filter hp
    simp at this
    exact this.2 hpe
  have hsub : ∀ rp ∈ calculate_action_ripples ps sid acting result magF magFo,
      rp.affected_player ∈ sessionOtherPlayers ps sid acting := by
    intro rp hrp
    unfold calculate_action_ripples at hrp
    rw [List.mem_append] at hrp
    rcases hrp with h | h
    · split at h
      · obtain ⟨x, hx, hxe⟩ := List.mem_map.mp h
        rw [← hxe]
        exact hx
      · simp at h
    · split at h
      · obtain ⟨x, hx, hxe⟩ := List.mem_map.mp h
        rw [← hxe]
        exact hx
      · simp at h
  refine ⟨?_, ?_, ?_, ?_⟩
  · unfold calculate_action_ripples
    rw [List.countP_append]
    by_cases hfi : result.faction_impact = [] <;>
      by_cases hfo : result.force_impact = [] <;>
        simp [hfi, hfo, List.countP_map, Function.comp_def, hcp,
          show (("force_disturbance" == "faction_reputation_shift") = false) from rfl]
  · unfold calculate_action_ripples
    rw [List.countP_append]
    by_cases hfi : result.faction_impact = [] <;>
      by_cases hfo : result.force_impact = [] <;>
        simp [hfi, hfo, List.countP_map, Function.comp_def, hcp,
          show (("faction_reputation_shift" == "force_disturbance") = false) from rfl]
  · intro hmem
    obtain ⟨rp, hrp, he⟩ := List.mem_map.mp hmem
    exact hnotacting (he ▸ hsub rp hrp)
  · intro hempty
    unfold calculate_action_ripples
    rw [hempty]
    split_ifs <;> simp

/-- C8: a successful `process_player_action` call returns, for each
player `q`, exactly one faction-dimension ripple when the executed
action's `faction_impact` is non-empty and `q` is another member of
the actor's session (zero otherwise), exactly one force-dimension
ripple under the analogous condition, never a ripple for the acting
player, and no ripples at all when the actor is alone. -/
theorem action_ripples_per_other_player (st : MState) (pid : String) (a : PAction)
    (o : ActionOracle) (sid : String) (st' : MState) (res : ProcResult) (q : String)
    (hnodup : (st.player_sessions.map Prod.fst).Nodup)
    (hsid : dictGet st.player_sessions pid = some sid)
    (hrun : process_player_action st pid a o = (st', Except.ok res)) :
    (res.ripple_effects.countP
        (fun rp => rp.affected_player == q && rp.effect_type == "faction_reputation_shift")
      = if res.action_result.faction_impact ≠ []
          ∧ q ∈ sessionOtherPlayers st.player_sessions sid pid then 1 else 0)
    ∧ (res.ripple_effects.countP
        (fun rp => rp.affected_player == q && rp.effect_type == "force_disturbance")
      = if res.action_result.force_impact ≠ []
          ∧ q ∈ sessionOtherPlayers st.player_sessions sid pid then 1 else 0)
    ∧ pid ∉ res.ripple_effects.map (fun rp => rp.affected_player)
    ∧ (sessionOtherPlayers st.player_sessions sid pid = [] → res.ripple_effects = []) := by
  unfold process_player_action at hrun
  rw [hsid] at hrun
  simp only [Option.elim] at hrun
  cases hws : dictGet st.active_sessions sid with
  | none => rw [hws] at hrun; simp at hrun
  | some ws =>
    rw [hws] at hrun
    simp only [Option.elim] at hrun
    cases hev : dictGet st.session_events sid with
    | none => rw [hev] at hrun; simp at hrun
    | some evs =>
      rw [hev] at hrun
      simp only [Option.elim, Prod.mk.injEq, Except.ok.injEq] at hrun
      obtain ⟨-, hres⟩ := hrun
      subst hres
      exact ripples_spec st.player_sessions sid pid (execute_player_action a o)
        o.magF o.magFo q hnodup

/-- Witness for C8: Alice acts in a two-player session; Bob receives
exactly one faction ripple, Alice none, and the faction impact of a
faction mission is indeed non-empty. -/
theorem action_ripples_per_other_player_witness :
    (c8Res.ripple_effects.countP
        (fun rp => rp.affected_player == "bob" && rp.effect_type == "faction_reputation_shift")
      = if c8Res.action_result.faction_impact ≠ []
          ∧ "bob" ∈ sessionOtherPlayers c8State.player_sessions "s1" "alice" then 1 else 0)
    ∧ (c8Res.ripple_effects.countP
        (fun rp => rp.affected_player == "bob" && rp.effect_type == "force_disturbance")
      = if c8Res.action_result.force_impact ≠ []
          ∧ "bob" ∈ sessionOtherPlayers c8State.player_sessions "s1" "alice" then 1 else 0)
    ∧ "alice" ∉ c8Res.ripple_effects.map (fun rp => rp.affected_player)
    ∧ (sessionOtherPlayers c8State.player_sessions "s1" "alice" = [] →
        c8Res.ripple_effects = []) :=
  action_ripples_per_other_player c8State "alice" c8Action c8Oracle "s1"
    (process_player_action c8State "alice" c8Action c8Oracle).1 c8Res "bob"
    (by decide) rfl rfl

/-! ## C9 -/

/-- Setting a key makes it retrievable with the new value. -/
theorem dictGet_dictSet_self {β : Type} (m : List (String × β)) (k : String) (v : β) :
    dictGet (dictSet m k v) k = some v := by
  induction m with
  | nil => simp [dictSet, dictGet]
  | cons p rest ih =>
    unfold dictSet
    split_ifs with h
    · simp [dictGet]
    · simpa [dictGet, h] using ih

/-- Setting one key leaves every other key's lookup unchanged. -/
theorem dictGet_dictSet_ne {β : Type} (m : List (String × β)) (k k' : String) (v : β)
    (h : k' ≠ k) : dictGet (dictSet m k v) k' = dictGet m k' := by
  induction m with
  | nil => simp [dictSet, dictGet, Ne.symm h]
  | cons p rest ih =>
    unfold dictSet
    split_ifs with hp
    · simp [dictGet, Ne.symm h, hp]
    · unfold dictGet
      split_ifs with hp'
      · rfl
      · exact ih

/-- A key present after a set was present before or is the set key. -/
theorem mem_keys_dictSet {β : Type} (m : List (String × β)) (k : String) (v : β)
    (x : String) :
    x ∈ (dictSet m k v).map Prod.fst → x ∈ m.map Prod.fst ∨ x = k := by
  induction m with
  | nil =>
    intro hx
    right
    simpa [dictSet] using hx
  | cons p rest ih =>
    intro hx
    unfold dictSet at hx
    split_ifs at hx with hp
    · rw [List.map_cons, List.mem_cons] at hx
      rcases hx with hx | hx
      · right; exact hx
      · left; rw [List.map_cons, List.mem_cons]; right; exact hx
    · rw [List.map_cons, List.mem_cons] at hx
      rcases hx with hx | hx
      · left; rw [List.map_cons, List.mem_cons]; left; exact hx
      · rcases ih hx with h | h
        · left; rw [List.map_cons, List.mem_cons]; right; exact h
        · right; exact h

/-- Folding the balance update over entries whose keys avoid `f`
leaves `f`'s lookup unchanged. -/
theorem balance_foldl_get_notmem (val : String × List String → ℚ) :
    ∀ (m : List (String × List String)) (bacc : List (String × ℚ)) (f : String),
      f ∉ m.map Prod.fst →
      dictGet (m.foldl (fun b p =>
        if p.1 ≠ "Neutral" then dictSet b p.1 (val p) else b) bacc) f = dictGet bacc f := by
  intro m
  induction m with
  | nil => intro bacc f _; rfl
  | cons p rest ih =>
    intro bacc f hf
    simp at hf
    rw [List.foldl_cons, ih _ f (by simpa using hf.2)]
    split_ifs with hp
    · exact dictGet_dictSet_ne bacc p.1 f (val p) hf.1
    · rfl

/-- With pairwise-distinct keys, the balance fold maps every
non-Neutral entry of the control map to its computed value. -/
theorem balance_foldl_get (val : String × List String → ℚ) :
    ∀ (m : List (String × List String)) (bacc : List (String × ℚ))
      (f : String) (ts : List String),
      (f, ts) ∈ m → f ≠ "Neutral" → (m.map Prod.fst).Nodup →
      dictGet (m.foldl (fun b p =>
        if p.1 ≠ "Neutral" then dictSet b p.1 (val p) else b) bacc) f
        = some (val (f, ts)) := by
  intro m
  induction m with
  | nil => intro bacc f ts h; simp at h
  | cons p rest ih =>
    intro bacc f ts hmem hf hnodup
    rw [List.map_cons] at hnodup
    obtain ⟨hnotin, htail⟩ := List.nodup_cons.mp hnodup
    rcases List.mem_cons.mp hmem with heq | hmem'
    · subst heq
      rw [List.foldl_cons]
      rw [balance_foldl_get_notmem val rest _ f (by simpa using hnotin)]
      simp only [if_pos hf]
      exact dictGet_dictSet_self bacc f (val (f, ts))
    · rw [List.foldl_cons]
      exact ih _ f ts hmem' hf htail

/-- The balance fold never introduces the key "Neutral". -/
theorem balance_foldl_no_neutral (val : String × List String → ℚ) :
    ∀ (m : List (String × List String)) (bacc : List (String × ℚ)),
      "Neutral" ∉ bacc.map Prod.fst →
      "Neutral" ∉ (m.foldl (fun b p =>
        if p.1 ≠ "Neutral" then dictSet b p.1 (val p) else b) bacc).map Prod.fst := by
  intro m
  induction m with
  | nil => intro bacc h; exact h
  | cons p rest ih =>
    intro bacc h
    rw [List.foldl_cons]
    apply ih
    split_ifs with hp
    · intro hc
      rcases mem_keys_dictSet bacc p.1 (val p) "Neutral" hc with hc' | hc'
      · exact h hc'
      · exact hp hc'.symm
    · exact h

/-- C9 counterexample: on the initial territory map (Empire, Rebellion,
Corporate and Neutral holding 4 locations each) the computed balance
gives Empire 4/16 — its share of the total *including* Neutral's
territory — not the claimed 4/12 share of non-Neutral territory; and
`sync_session_state` itself never returns the balance: it raises
`AttributeError` because `_calculate_global_influence` is not defined
anywhere in the repository (the state is left unchanged). -/
theorem faction_balance_includes_neutral_cex :
    calculate_session_faction_balance c8World = some c9Balance
    ∧ dictGet c9Balance "Empire" = some ((4 : ℚ) / 16)
    ∧ (4 : ℚ) / 16 ≠ 4 / 12
    ∧ "Neutral" ∉ c9Balance.map Prod.fst
    ∧ (sync_session_state c8State "s1").1 = c8State
    ∧ (sync_session_state c8State "s1").2
      = Except.error "AttributeError: _calculate_global_influence is not defined" := by
  refine ⟨rfl, ?_, by norm_num, by decide, rfl, rfl⟩
  have e : dictGet c9Balance "Empire" = some (((4 : Nat) : ℚ) / (((16 : Int)) : ℚ)) := rfl
  rw [e]
  norm_num

/-- C9 amended: for an existing session, `_calculate_session_faction_balance`
maps each non-Neutral faction of the control map (keys distinct) to
its territory count divided by the total territory count over all
factions, Neutral included; "Neutral" never appears as a key; and
`sync_session_state` performs no state mutation but never returns this
balance — it raises `AttributeError` on the undefined
`_calculate_global_influence`. -/
theorem faction_balance_amended (ws : SessionWorldState) (st : MState) (sid : String)
    (f : String) (ts : List String) (b : List (String × ℚ))
    (hmem : (f, ts) ∈ ws.faction_control_map)
    (hf : f ≠ "Neutral")
    (hkeys : (ws.faction_control_map.map Prod.fst).Nodup)
    (hbal : calculate_session_faction_balance ws = some b)
    (hsession : dictGet st.active_sessions sid = some ws) :
    dictGet b f = some ((ts.length : ℚ)
      / (((ws.faction_control_map.map (fun p => (p.2.length : Int))).sum : Int) : ℚ))
    ∧ "Neutral" ∉ b.map Prod.fst
    ∧ (sync_session_state st sid).1 = st
    ∧ (sync_session_state st sid).2
      = Except.error "AttributeError: _calculate_global_influence is not defined" := by
  have hsync : (sync_session_state st sid).1 = st
      ∧ (sync_session_state st sid).2
        = Except.error "AttributeError: _calculate_global_influence is not defined" := by
    unfold sync_session_state
    rw [hsession]
    simp only [Option.elim]
    rw [hbal]
    exact ⟨rfl, rfl⟩
  unfold calculate_session_faction_balance at hbal
  dsimp only at hbal
  by_cases hguard : (ws.faction_control_map.any fun p => decide (p.1 ≠ "Neutral")) = true
      ∧ (List.map (fun p => ((p.2.length : Int))) ws.faction_control_map).sum = 0
  · rw [if_pos hguard] at hbal
    exact absurd hbal (by simp)
  · rw [if_neg hguard] at hbal
    have hb := Option.some.inj hbal
    subst hb
    refine ⟨?_, ?_, hsync.1, hsync.2⟩
    · exact balance_foldl_get
        (fun p => ((p.2.length : ℚ)
          / (((ws.faction_control_map.map (fun q => (q.2.length : Int))).sum : Int) : ℚ)))
        ws.faction_control_map _ f ts hmem hf hkeys
    · apply balance_foldl_no_neutral
      decide

/-- Witness for C9's amended theorem: the Empire entry of the initial
territory map, whose share is 4 divided by the 16-location total. -/
theorem faction_balance_amended_witness :
    dictGet c9Balance "Empire"
      = some (((["Coruscant", "Kuat", "Fondor", "Carida"] : List String).length : ℚ)
        / (((c8World.faction_control_map.map (fun p => (p.2.length : Int))).sum : Int) : ℚ))
    ∧ "Neutral" ∉ c9Balance.map Prod.fst
    ∧ (sync_session_state c8State "s1").1 = c8State
    ∧ (sync_session_state c8State "s1").2
      = Except.error "AttributeError: _calculate_global_influence is not defined" :=
  faction_balance_amended c8World c8State "s1" "Empire"
    ["Coruscant", "Kuat", "Fondor", "Carida"] c9Balance
    (by decide) (by decide) (by decide) rfl rfl

/-! ## C10 -/

/-- C10: evaluating `join_session` at the failing input — Bob, linked
to session s1, joins s2.  The player index is overwritten first (Bob
maps to s2 and s1 retains no member entry for him), and a subsequent
`process_player_action` resolves Bob to s2; but the call itself then
raises `AttributeError`, because line 117 of
src/services/session_manager.py invokes `_update_session_timestamp`,
which is defined nowhere in the repository — so no `join_session` call
ever returns normally, and the claimed silent reassignment is a
mutate-then-raise. -/
theorem join_session_attribute_error_eval :
    c10Join.2 = Except.error "AttributeError: _update_session_timestamp is not defined"
    ∧ dictGet c10Join.1.player_sessions "bob" = some "s2"
    ∧ c10Join.1.player_sessions.filter (fun p => p.2 = "s1") = []
    ∧ (process_player_action c10Join.1 "bob" c8Action c8Oracle).2.toOption.map
        (fun r => r.updated_world_state.session_id) = some "s2" :=
  ⟨rfl, rfl, rfl, rfl⟩
